import Mathlib

/-!
Shallow embedding of the Melbourne public-toilet rating application
(source file `deepseek_python_20250609_9b7303.py`).

The pandas dataframe is modelled as a list of records, Python floats as
exact rationals, and the persisted CSV file as a header row followed by
one row of typed cells per record (the textual encoding of a cell, which
pandas round-trips, is abstracted into the `Cell` type).  Stateful UI
handlers become pure functions from the table to the new table.
-/

/-- One row of the toilet table: the columns of the dataframe built in
`load_toilet_data` (lines 26-47 of the source). -/
structure ToiletRecord where
  name : String
  address : String
  latitude : ℚ
  longitude : ℚ
  avg_rating : ℚ
  num_ratings : ℤ
  last_updated : String
deriving Repr, DecidableEq

/-- The in-memory dataframe `df`. -/
abbrev Table := List ToiletRecord

/-- The fallback dataset built in the `except` branch of `load_toilet_data`
(lines 26-47): five fixed Melbourne locations, each stamped with the
current date `today`. -/
def seedData (today : String) : Table :=
  [ { name := "Flinders Street Station Toilets",
      address := "Flinders St, Melbourne VIC 3000",
      latitude := -37.8183, longitude := 144.9671,
      avg_rating := 3.5, num_ratings := 12, last_updated := today },
    { name := "Queen Victoria Market Toilets",
      address := "Queen St, Melbourne VIC 3000",
      latitude := -37.8076, longitude := 144.9580,
      avg_rating := 4.0, num_ratings := 8, last_updated := today },
    { name := "Federation Square Toilets",
      address := "Swanston St & Flinders St, Melbourne VIC 3000",
      latitude := -37.8180, longitude := 144.9674,
      avg_rating := 4.2, num_ratings := 15, last_updated := today },
    { name := "Melbourne Central Toilets",
      address := "211 La Trobe St, Melbourne VIC 3000",
      latitude := -37.8106, longitude := 144.9628,
      avg_rating := 3.8, num_ratings := 10, last_updated := today },
    { name := "State Library Toilets",
      address := "328 Swanston St, Melbourne VIC 3000",
      latitude := -37.8097, longitude := 144.9651,
      avg_rating := 4.1, num_ratings := 7, last_updated := today } ]

/-- A cell of the persisted CSV file.  pandas stores cells as text but
round-trips string, float and integer cells through `to_csv` / `read_csv`;
that typed round-trip is what the constructors capture. -/
inductive Cell where
  | str (s : String)
  | rat (q : ℚ)
  | int (n : ℤ)
deriving Repr, DecidableEq

/-- The persisted file `melbourne_toilet_ratings.csv`: a list of rows. -/
abbrev CsvFile := List (List Cell)

/-- The header row written by `df.to_csv(..., index=False)`. -/
def headerRow : List Cell :=
  [.str "name", .str "address", .str "latitude", .str "longitude",
   .str "avg_rating", .str "num_ratings", .str "last_updated"]

/-- Serialization of one record to one CSV row. -/
def rowOf (r : ToiletRecord) : List Cell :=
  [.str r.name, .str r.address, .rat r.latitude, .rat r.longitude,
   .rat r.avg_rating, .int r.num_ratings, .str r.last_updated]

/-- Saving, `df.to_csv("melbourne_toilet_ratings.csv", index=False)`
(lines 85 and 190): the whole table is rewritten, header first, no index column. -/
def to_csv (t : Table) : CsvFile :=
  headerRow :: t.map rowOf

/-- Parsing one CSV data row back into a record; fails on any row whose
shape or cell types do not match the schema. -/
def parseRow : List Cell → Option ToiletRecord
  | [.str n, .str a, .rat la, .rat lo, .rat av, .int k, .str lu] =>
    some { name := n, address := a, latitude := la, longitude := lo,
           avg_rating := av, num_ratings := k, last_updated := lu }
  | _ => none

/-- Reading, `pd.read_csv("melbourne_toilet_ratings.csv")` (line 23): fails (raises,
modelled as `none`) on an empty file, a wrong header, or any malformed
row. -/
def read_csv (file : CsvFile) : Option Table :=
  match file with
  | [] => none
  | h :: rows => if h = headerRow then rows.mapM parseRow else none

/-- Loader `load_toilet_data` (lines 19-47): try to read the persisted file; on
any failure (`storage = none` models a missing file, a parse failure
models malformed content) fall back to the seed dataset.  Total by
construction: it never propagates an error. -/
def load_toilet_data (storage : Option CsvFile) (today : String) : Table :=
  match storage with
  | none => seedData today
  | some file =>
    match read_csv file with
    | some t => t
    | none => seedData today

/-- The running-average update of the Submit Rating handler (lines 77-81):
`new_avg = (current_avg * current_count + rating) / (current_count + 1)`
and the count is incremented. -/
def applyRating (avg : ℚ) (count : ℤ) (stars : ℤ) : ℚ × ℤ :=
  ((avg * (count : ℚ) + (stars : ℚ)) / ((count : ℚ) + 1), count + 1)

/-- The Submit Rating button handler (lines 70-87).  `mask` selects the
rows whose `name` equals the selected name; `current_avg` and
`current_count` come from the first matching row (`.values[0]`), and every
masked row receives the new average, the new count and today's date.  If
no row matches, `.values[0]` raises (modelled as `none`). -/
def submitRating (df : Table) (selected : String) (rating : ℤ)
    (today : String) : Option Table :=
  match df.find? (fun r => r.name == selected) with
  | none => none
  | some r0 =>
    some (df.map fun r =>
      if r.name == selected then
        { r with
          avg_rating := (applyRating r0.avg_rating r0.num_ratings rating).1,
          num_ratings := (applyRating r0.avg_rating r0.num_ratings rating).2,
          last_updated := today }
      else r)

/-- Folding a sequence of star ratings into a single record's
`(avg_rating, num_ratings)` state with the handler's update rule. -/
def applyRatings (start : ℚ × ℤ) (stars : List ℤ) : ℚ × ℤ :=
  stars.foldl (fun p s => applyRating p.1 p.2 s) start

/-- The `new_toilet_form` handler (lines 176-193): with a non-empty name
and address (Python truthiness of the two strings) a fresh record with
`avg_rating=0`, `num_ratings=0` is appended; otherwise an error message is
shown and the table is left alone.  The second component is the error
message, `none` on success. -/
def addToilet (df : Table) (name address : String) (lat lon : ℚ)
    (today : String) : Table × Option String :=
  if name = "" ∨ address = "" then
    (df, some "Please provide both a name and address")
  else
    (df ++ [{ name := name, address := address, latitude := lat,
              longitude := lon, avg_rating := 0, num_ratings := 0,
              last_updated := today }], none)

/-- The dataset invariant of the spec: the average lies in `[0,5]` and the
count is a non-negative integer. -/
def GoodRecord (r : ToiletRecord) : Prop :=
  0 ≤ r.avg_rating ∧ r.avg_rating ≤ 5 ∧ 0 ≤ r.num_ratings

instance (r : ToiletRecord) : Decidable (GoodRecord r) := by
  unfold GoodRecord; infer_instance

/-- Every record of the table satisfies `GoodRecord`. -/
def GoodTable (df : Table) : Prop :=
  ∀ r ∈ df, GoodRecord r

instance (df : Table) : Decidable (GoodTable df) :=
  List.decidableBAll _ df

/-- A table with two records sharing one name, used to exercise the
ambiguous-match behaviour of the Submit Rating handler. -/
def twinTable : Table :=
  [ { name := "Twin Toilets", address := "1 First St",
      latitude := -37.81, longitude := 144.96,
      avg_rating := 2, num_ratings := 1, last_updated := "2025-06-09" },
    { name := "Twin Toilets", address := "2 Second St",
      latitude := -37.82, longitude := 144.97,
      avg_rating := 4, num_ratings := 1, last_updated := "2025-06-09" } ]

/-- The seed table after a 5-star submission for "Flinders Street Station
Toilets" on 2025-06-09. -/
def flindersUpdated : Table :=
  [ { name := "Flinders Street Station Toilets",
      address := "Flinders St, Melbourne VIC 3000",
      latitude := -37.8183, longitude := 144.9671,
      avg_rating := (3.5 * 12 + 5) / 13, num_ratings := 13,
      last_updated := "2025-06-09" },
    { name := "Queen Victoria Market Toilets",
      address := "Queen St, Melbourne VIC 3000",
      latitude := -37.8076, longitude := 144.9580,
      avg_rating := 4.0, num_ratings := 8, last_updated := "2025-06-09" },
    { name := "Federation Square Toilets",
      address := "Swanston St & Flinders St, Melbourne VIC 3000",
      latitude := -37.8180, longitude := 144.9674,
      avg_rating := 4.2, num_ratings := 15, last_updated := "2025-06-09" },
    { name := "Melbourne Central Toilets",
      address := "211 La Trobe St, Melbourne VIC 3000",
      latitude := -37.8106, longitude := 144.9628,
      avg_rating := 3.8, num_ratings := 10, last_updated := "2025-06-09" },
    { name := "State Library Toilets",
      address := "328 Swanston St, Melbourne VIC 3000",
      latitude := -37.8097, longitude := 144.9651,
      avg_rating := 4.1, num_ratings := 7, last_updated := "2025-06-09" } ]

/-- A one-record table holding a never-rated toilet. -/
def testTable : Table :=
  [ { name := "Test Toilet", address := "1 Test St",
      latitude := -37.81, longitude := 144.96,
      avg_rating := 0, num_ratings := 0, last_updated := "2025-06-09" } ]

/-- Table `testTable` after one 4-star submission on 2025-06-10. -/
def testUpdated : Table :=
  [ { name := "Test Toilet", address := "1 Test St",
      latitude := -37.81, longitude := 144.96,
      avg_rating := 4, num_ratings := 1, last_updated := "2025-06-10" } ]

/-- Table `twinTable` after one 5-star submission for "Twin Toilets" on
2025-06-10: both namesakes receive the values computed from the first
record's prior average 2 and count 1. -/
def twinUpdated : Table :=
  [ { name := "Twin Toilets", address := "1 First St",
      latitude := -37.81, longitude := 144.96,
      avg_rating := (2 * 1 + 5) / (1 + 1), num_ratings := 2,
      last_updated := "2025-06-10" },
    { name := "Twin Toilets", address := "2 Second St",
      latitude := -37.82, longitude := 144.97,
      avg_rating := (2 * 1 + 5) / (1 + 1), num_ratings := 2,
      last_updated := "2025-06-10" } ]

/-- Unfolding of the Submit Rating handler once the first matching row is
known: every row is mapped, matched rows get the values computed from that
first match. -/
theorem submitRating_eq_map (df : Table) (sel : String) (rating : ℤ)
    (today : String) (r0 : ToiletRecord)
    (hfind : df.find? (fun r => r.name == sel) = some r0) :
    submitRating df sel rating today =
      some (df.map fun r =>
        if r.name == sel then
          { r with
            avg_rating := (applyRating r0.avg_rating r0.num_ratings rating).1,
            num_ratings := (applyRating r0.avg_rating r0.num_ratings rating).2,
            last_updated := today }
        else r) := by
  simp [submitRating, hfind]

/-- C1: a rating submission sets every matched record's average to
`(old_avg * old_count + stars) / (old_count + 1)`, its count to
`old_count + 1`, and its `last_updated` to the current date, where
`old_avg` and `old_count` are the prior values of the selected (first
matching) record. -/
theorem submitRating_running_average (df : Table) (sel : String)
    (stars : ℤ) (today : String) (r0 : ToiletRecord) (df' : Table)
    (hfind : df.find? (fun r => r.name == sel) = some r0)
    (hsub : submitRating df sel stars today = some df') :
    ∀ r' ∈ df', (r'.name == sel) = true →
      r'.avg_rating =
        (r0.avg_rating * (r0.num_ratings : ℚ) + (stars : ℚ)) /
          ((r0.num_ratings : ℚ) + 1) ∧
      r'.num_ratings = r0.num_ratings + 1 ∧
      r'.last_updated = today := by
  rw [submitRating_eq_map df sel stars today r0 hfind] at hsub
  injection hsub with hsub
  subst hsub
  intro r' hr' hname
  rcases List.mem_map.mp hr' with ⟨r, _, hfr⟩
  by_cases hc : (r.name == sel) = true
  · rw [if_pos hc] at hfr
    subst hfr
    exact ⟨rfl, rfl, rfl⟩
  · rw [if_neg hc] at hfr
    subst hfr
    exact absurd hname hc

/-- Witness for C1, the spec's scenario: the seed record "Flinders Street
Station Toilets" starts at average 3.5 with 12 ratings; submitting a
5-star rating yields average `(3.5 * 12 + 5) / 13` and count 13. -/
theorem submitRating_running_average_flinders :
    submitRating (seedData "2025-06-09") "Flinders Street Station Toilets"
        5 "2025-06-09" = some flindersUpdated ∧
    ∀ r' ∈ flindersUpdated,
      (r'.name == "Flinders Street Station Toilets") = true →
      r'.avg_rating = (3.5 * 12 + 5) / 13 ∧ r'.num_ratings = 13 ∧
      r'.last_updated = "2025-06-09" := by
  refine ⟨by with_unfolding_all rfl, ?_⟩
  intro r' hr' hname
  have h := submitRating_running_average (seedData "2025-06-09")
    "Flinders Street Station Toilets" 5 "2025-06-09"
    { name := "Flinders Street Station Toilets",
      address := "Flinders St, Melbourne VIC 3000",
      latitude := -37.8183, longitude := 144.9671,
      avg_rating := 3.5, num_ratings := 12, last_updated := "2025-06-09" }
    flindersUpdated rfl (by with_unfolding_all rfl) r' hr' hname
  refine ⟨?_, h.2.1, h.2.2⟩
  rw [h.1]
  norm_num

/-- C3: submitting a star value `s` between 1 and 5 to a record whose
count is 0 sets the average exactly equal to `s`: the update computes
`(old_avg * 0 + s) / 1 = s` in exact arithmetic. -/
theorem first_rating_sets_average_exactly (df : Table) (sel : String)
    (s : ℤ) (today : String) (r0 : ToiletRecord) (df' : Table)
    (hfind : df.find? (fun r => r.name == sel) = some r0)
    (h0 : r0.num_ratings = 0) (h1 : 1 ≤ s) (h5 : s ≤ 5)
    (hsub : submitRating df sel s today = some df') :
    ∀ r' ∈ df', (r'.name == sel) = true → r'.avg_rating = (s : ℚ) := by
  rw [submitRating_eq_map df sel s today r0 hfind] at hsub
  injection hsub with hsub
  subst hsub
  intro r' hr' hname
  rcases List.mem_map.mp hr' with ⟨r, _, hfr⟩
  by_cases hc : (r.name == sel) = true
  · rw [if_pos hc] at hfr
    subst hfr
    show (applyRating r0.avg_rating r0.num_ratings s).1 = (s : ℚ)
    rw [h0]
    simp [applyRating]
  · rw [if_neg hc] at hfr
    subst hfr
    exact absurd hname hc

/-- Witness for C3: the never-rated "Test Toilet" receives a 4-star
rating and its average becomes exactly 4. -/
theorem first_rating_sets_average_exactly_witness :
    (1 : ℤ) ≤ 4 ∧ (4 : ℤ) ≤ 5 ∧
    submitRating testTable "Test Toilet" 4 "2025-06-10" =
      some testUpdated ∧
    ∀ r' ∈ testUpdated, (r'.name == "Test Toilet") = true →
      r'.avg_rating = ((4 : ℤ) : ℚ) := by
  refine ⟨by decide, by decide, by with_unfolding_all rfl, ?_⟩
  exact first_rating_sets_average_exactly testTable "Test Toilet" 4
    "2025-06-10"
    { name := "Test Toilet", address := "1 Test St",
      latitude := -37.81, longitude := 144.96,
      avg_rating := 0, num_ratings := 0, last_updated := "2025-06-09" }
    testUpdated rfl rfl (by decide) (by decide)
    (by with_unfolding_all rfl)

/-- C10: a rating submission keeps the table's length; a record whose
name differs from the selection is returned unchanged, and every record
whose name equals the selection is changed only in `avg_rating`,
`num_ratings` and `last_updated`, all matches receiving the same values
computed from the first matching record's priors. -/
theorem submitRating_frame (df : Table) (sel : String) (stars : ℤ)
    (today : String) (r0 : ToiletRecord) (df' : Table)
    (hfind : df.find? (fun r => r.name == sel) = some r0)
    (hsub : submitRating df sel stars today = some df') :
    df'.length = df.length ∧
    ∀ i : ℕ, df'[i]? = (df[i]?).map (fun r =>
      if r.name == sel then
        { r with
          avg_rating := (applyRating r0.avg_rating r0.num_ratings stars).1,
          num_ratings := (applyRating r0.avg_rating r0.num_ratings stars).2,
          last_updated := today }
      else r) := by
  rw [submitRating_eq_map df sel stars today r0 hfind] at hsub
  injection hsub with hsub
  subst hsub
  refine ⟨List.length_map _ _, ?_⟩
  intro i
  simp [List.getElem?_map]

/-- Witness for C10: in `twinTable` two records share the name
"Twin Toilets"; one submission updates both, and both end with the
average `(2 * 1 + 5) / (1 + 1)` and count 2 computed from the first
record's priors, all other fields untouched. -/
theorem submitRating_frame_twins :
    submitRating twinTable "Twin Toilets" 5 "2025-06-10" =
      some twinUpdated ∧
    twinUpdated.length = twinTable.length ∧
    ∀ i : ℕ, twinUpdated[i]? = (twinTable[i]?).map (fun r =>
      if r.name == "Twin Toilets" then
        { r with
          avg_rating := (applyRating 2 1 5).1,
          num_ratings := (applyRating 2 1 5).2,
          last_updated := "2025-06-10" }
      else r) := by
  refine ⟨by with_unfolding_all rfl, ?_⟩
  exact submitRating_frame twinTable "Twin Toilets" 5 "2025-06-10"
    { name := "Twin Toilets", address := "1 First St",
      latitude := -37.81, longitude := 144.96,
      avg_rating := 2, num_ratings := 1, last_updated := "2025-06-09" }
    twinUpdated rfl (by with_unfolding_all rfl)

/-- Folding one more rating steps the accumulator by `applyRating`. -/
theorem applyRatings_cons (a : ℚ) (c : ℤ) (s : ℤ) (sl : List ℤ) :
    applyRatings (a, c) (s :: sl) = applyRatings (applyRating a c s) sl :=
  rfl

/-- Invariant of the running-average fold: the count grows by the number
of ratings folded in, and average times count grows by their sum. -/
theorem applyRatings_invariant (sl : List ℤ) :
    ∀ (a : ℚ) (c : ℤ), 0 ≤ c →
      (applyRatings (a, c) sl).2 = c + sl.length ∧
      (applyRatings (a, c) sl).1 * ((c : ℚ) + (sl.length : ℚ)) =
        a * (c : ℚ) + ((sl.sum : ℤ) : ℚ) := by
  induction sl with
  | nil =>
    intro a c _
    simp [applyRatings]
  | cons s sl ih =>
    intro a c hc
    have hcq : (0 : ℚ) ≤ (c : ℚ) := by exact_mod_cast hc
    have hne : ((c : ℚ) + 1) ≠ 0 := by positivity
    have hstep : applyRating a c s =
        ((a * (c : ℚ) + (s : ℚ)) / ((c : ℚ) + 1), c + 1) := rfl
    rw [List.length_cons, List.sum_cons, applyRatings_cons, hstep]
    obtain ⟨ih1, ih2⟩ :=
      ih ((a * (c : ℚ) + (s : ℚ)) / ((c : ℚ) + 1)) (c + 1) (by omega)
    refine ⟨?_, ?_⟩
    · rw [ih1]
      push_cast
      ring
    · have hcancel : (a * (c : ℚ) + (s : ℚ)) / ((c : ℚ) + 1) *
          ((c : ℚ) + 1) = a * (c : ℚ) + (s : ℚ) :=
        div_mul_cancel₀ _ hne
      push_cast at ih2 ⊢
      rw [hcancel] at ih2
      linear_combination ih2

/-- C2 (amended): starting from a fresh record (`avg_rating = 0`,
`num_ratings = 0`), folding the star values `s1..sN` with the handler's
update rule yields exactly the arithmetic mean `(s1+...+sN)/N` and count
`N`. -/
theorem fresh_record_average_is_mean (sl : List ℤ) :
    applyRatings (0, 0) sl =
      (((sl.sum : ℤ) : ℚ) / ((sl.length : ℕ) : ℚ), (sl.length : ℤ)) := by
  obtain ⟨h2, h1⟩ := applyRatings_invariant sl 0 0 le_rfl
  by_cases hnil : sl = []
  · subst hnil
    simp [applyRatings]
  · have hlen : sl.length ≠ 0 := fun h => hnil (List.eq_nil_of_length_eq_zero h)
    have hq : ((sl.length : ℕ) : ℚ) ≠ 0 := Nat.cast_ne_zero.mpr hlen
    have e2 : (applyRatings (0, 0) sl).2 = (sl.length : ℤ) := by
      rw [h2]; ring
    have e1 : (applyRatings (0, 0) sl).1 =
        ((sl.sum : ℤ) : ℚ) / ((sl.length : ℕ) : ℚ) := by
      rw [eq_div_iff hq]
      simpa using h1
    calc applyRatings (0, 0) sl
        = ((applyRatings (0, 0) sl).1, (applyRatings (0, 0) sl).2) := rfl
      _ = (((sl.sum : ℤ) : ℚ) / ((sl.length : ℕ) : ℚ), (sl.length : ℤ)) := by
          rw [e1, e2]

/-- Counterexample to C2 as stated: the seed record "Flinders Street
Station Toilets" already has 12 prior ratings, so after the single
submission sequence `s1 = 5` (N = 1) its `num_ratings` is 13, not N = 1. -/
theorem seed_record_average_not_mean :
    submitRating (seedData "2025-06-09") "Flinders Street Station Toilets"
        5 "2025-06-09" = some flindersUpdated ∧
    flindersUpdated.head?.map ToiletRecord.num_ratings = some 13 ∧
    ¬ flindersUpdated.head?.map ToiletRecord.num_ratings = some 1 := by
  refine ⟨by with_unfolding_all rfl, rfl, ?_⟩
  intro h
  simp [flindersUpdated] at h

/-- The running-average update keeps the average within `[0,5]` and the
count non-negative, provided the priors were in range and the star value
lies in `1..5`. -/
theorem applyRating_bounds (a : ℚ) (c : ℤ) (s : ℤ)
    (ha0 : 0 ≤ a) (ha5 : a ≤ 5) (hc : 0 ≤ c) (hs1 : 1 ≤ s) (hs5 : s ≤ 5) :
    0 ≤ (applyRating a c s).1 ∧ (applyRating a c s).1 ≤ 5 ∧
      0 ≤ (applyRating a c s).2 := by
  have hcq : (0 : ℚ) ≤ (c : ℚ) := by exact_mod_cast hc
  have hs1q : (1 : ℚ) ≤ (s : ℚ) := by exact_mod_cast hs1
  have hs5q : (s : ℚ) ≤ 5 := by exact_mod_cast hs5
  have hden : (0 : ℚ) < (c : ℚ) + 1 := by linarith
  refine ⟨?_, ?_, ?_⟩
  · apply div_nonneg _ (le_of_lt hden)
    nlinarith
  · rw [show (applyRating a c s).1 =
        (a * (c : ℚ) + (s : ℚ)) / ((c : ℚ) + 1) from rfl,
      div_le_iff hden]
    nlinarith
  · show (0 : ℤ) ≤ c + 1
    omega

/-- C4: every record of the seed dataset has its average in `[0,5]` and a
non-negative count, and this predicate is preserved by every rating
submission with stars in `1..5` and by every record addition. -/
theorem invariant_preserved :
    (∀ today, GoodTable (seedData today)) ∧
    (∀ (df : Table) (sel : String) (s : ℤ) (today : String) (df' : Table),
      1 ≤ s → s ≤ 5 → GoodTable df →
      submitRating df sel s today = some df' → GoodTable df') ∧
    (∀ (df : Table) (nm ad : String) (lat lon : ℚ) (today : String),
      GoodTable df → GoodTable (addToilet df nm ad lat lon today).1) := by
  refine ⟨?_, ?_, ?_⟩
  · intro today r hr
    simp only [seedData, List.mem_cons, List.not_mem_nil, or_false] at hr
    rcases hr with rfl | rfl | rfl | rfl | rfl <;>
      refine ⟨by norm_num, by norm_num, by norm_num⟩
  · intro df sel s today df' hs1 hs5 hgood hsub
    cases hfind : df.find? (fun r => r.name == sel) with
    | none => rw [submitRating, hfind] at hsub; exact absurd hsub (by simp)
    | some r0 =>
      rw [submitRating_eq_map df sel s today r0 hfind] at hsub
      injection hsub with hsub
      subst hsub
      intro r' hr'
      rcases List.mem_map.mp hr' with ⟨r, hr, hfr⟩
      by_cases hc : (r.name == sel) = true
      · rw [if_pos hc] at hfr
        subst hfr
        obtain ⟨h0, h5, hcnt⟩ := hgood r0 (List.mem_of_find?_eq_some hfind)
        obtain ⟨b0, b5, bcnt⟩ :=
          applyRating_bounds r0.avg_rating r0.num_ratings s h0 h5 hcnt hs1 hs5
        exact ⟨b0, b5, bcnt⟩
      · rw [if_neg hc] at hfr
        subst hfr
        exact hgood r hr
  · intro df nm ad lat lon today hgood r hr
    rw [addToilet] at hr
    by_cases h : nm = "" ∨ ad = ""
    · rw [if_pos h] at hr
      exact hgood r hr
    · rw [if_neg h] at hr
      rcases List.mem_append.mp hr with hmem | hmem
      · exact hgood r hmem
      · simp only [List.mem_singleton] at hmem
        subst hmem
        exact ⟨le_refl 0, by norm_num, le_refl 0⟩

/-- Witness for C4: the invariant holds of the seed dataset, survives the
5-star Flinders submission, and survives adding "Test Toilet". -/
theorem invariant_preserved_witness :
    GoodTable (seedData "2025-06-09") ∧
    ((1 : ℤ) ≤ 5 ∧ (5 : ℤ) ≤ 5) ∧
    GoodTable flindersUpdated ∧
    GoodTable (addToilet (seedData "2025-06-09") "Test Toilet" "1 Test St"
      (-37.81) 144.96 "2025-06-10").1 := by
  have h1 := invariant_preserved.1 "2025-06-09"
  refine ⟨h1, ⟨by decide, by decide⟩, ?_, ?_⟩
  · exact invariant_preserved.2.1 (seedData "2025-06-09")
      "Flinders Street Station Toilets" 5 "2025-06-09" flindersUpdated
      (by decide) (by decide) h1 (by with_unfolding_all rfl)
  · exact invariant_preserved.2.2 (seedData "2025-06-09") "Test Toilet"
      "1 Test St" (-37.81) 144.96 "2025-06-10" h1

/-- C5: whenever reading persisted storage fails — the file is missing
(`storage = none`) or its content does not parse — `load_toilet_data`
returns the 5-record seed dataset timestamped at load time; being a total
function, it never raises to the caller. -/
theorem load_falls_back_to_seed (storage : Option CsvFile) (today : String)
    (h : storage = none ∨
      ∃ file, storage = some file ∧ read_csv file = none) :
    load_toilet_data storage today = seedData today ∧
    (seedData today).length = 5 ∧
    ∀ r ∈ seedData today, r.last_updated = today := by
  refine ⟨?_, rfl, ?_⟩
  · rcases h with rfl | ⟨file, rfl, hf⟩
    · rfl
    · rw [load_toilet_data, hf]
  · intro r hr
    simp only [seedData, List.mem_cons, List.not_mem_nil, or_false] at hr
    rcases hr with rfl | rfl | rfl | rfl | rfl <;> rfl

/-- Witness for C5: with no persisted file, and with a malformed one-line
file, loading yields the seed dataset of five records. -/
theorem load_falls_back_to_seed_witness :
    (load_toilet_data none "2025-06-09" = seedData "2025-06-09" ∧
      (seedData "2025-06-09").length = 5 ∧
      ∀ r ∈ seedData "2025-06-09", r.last_updated = "2025-06-09") ∧
    load_toilet_data (some [[Cell.str "junk"]]) "2025-06-09" =
      seedData "2025-06-09" :=
  ⟨load_falls_back_to_seed none "2025-06-09" (Or.inl rfl),
   (load_falls_back_to_seed (some [[Cell.str "junk"]]) "2025-06-09"
     (Or.inr ⟨[[Cell.str "junk"]], rfl, rfl⟩)).1⟩

/-- C6: an add-record request with an empty name or an empty address is
rejected with a user-visible error message, and the table is unchanged —
no record is appended, so the record count is preserved. -/
theorem addToilet_rejects_empty (df : Table) (nm ad : String)
    (lat lon : ℚ) (today : String) (h : nm = "" ∨ ad = "") :
    (addToilet df nm ad lat lon today).1 = df ∧
    (addToilet df nm ad lat lon today).2 =
      some "Please provide both a name and address" ∧
    (addToilet df nm ad lat lon today).1.length = df.length := by
  rw [addToilet, if_pos h]
  exact ⟨rfl, rfl, rfl⟩

/-- Witness for C6: adding a toilet with an empty name to the seed table
is rejected and the table keeps its five records. -/
theorem addToilet_rejects_empty_witness :
    (("" : String) = "" ∨ ("1 Test St" : String) = "") ∧
    (addToilet (seedData "2025-06-09") "" "1 Test St" (-37.81) 144.96
      "2025-06-10").1 = seedData "2025-06-09" ∧
    (addToilet (seedData "2025-06-09") "" "1 Test St" (-37.81) 144.96
      "2025-06-10").2 = some "Please provide both a name and address" ∧
    (addToilet (seedData "2025-06-09") "" "1 Test St" (-37.81) 144.96
      "2025-06-10").1.length = (seedData "2025-06-09").length := by
  have h := addToilet_rejects_empty (seedData "2025-06-09") "" "1 Test St"
    (-37.81) 144.96 "2025-06-10" (Or.inl rfl)
  exact ⟨Or.inl rfl, h.1, h.2.1, h.2.2⟩

/-- C7: an add-record request with non-empty name and address and any
coordinates appends exactly one record carrying the given fields with
`avg_rating = 0` and `num_ratings = 0`; that record is a member of the
resulting table and no error is reported. -/
theorem addToilet_appends (df : Table) (nm ad : String) (lat lon : ℚ)
    (today : String) (hn : nm ≠ "") (ha : ad ≠ "") :
    (addToilet df nm ad lat lon today).1 =
      df ++ [{ name := nm, address := ad, latitude := lat,
               longitude := lon, avg_rating := 0, num_ratings := 0,
               last_updated := today }] ∧
    ({ name := nm, address := ad, latitude := lat, longitude := lon,
       avg_rating := 0, num_ratings := 0, last_updated := today } :
      ToiletRecord) ∈ (addToilet df nm ad lat lon today).1 ∧
    (addToilet df nm ad lat lon today).2 = none := by
  have hcond : ¬(nm = "" ∨ ad = "") := by
    intro hor
    rcases hor with h | h
    · exact hn h
    · exact ha h
  rw [addToilet, if_neg hcond]
  refine ⟨rfl, ?_, rfl⟩
  exact List.mem_append.mpr (Or.inr (List.mem_singleton.mpr rfl))

/-- Witness for C7, the spec's scenario: adding "Test Toilet" / "1 Test
St" at latitude -37.81 and longitude 144.96 appends a record with
`avg_rating = 0` and `num_ratings = 0`, retrievable afterward. -/
theorem addToilet_appends_witness :
    ("Test Toilet" : String) ≠ "" ∧ ("1 Test St" : String) ≠ "" ∧
    (addToilet (seedData "2025-06-09") "Test Toilet" "1 Test St" (-37.81)
        144.96 "2025-06-10").1 =
      seedData "2025-06-09" ++
        [{ name := "Test Toilet", address := "1 Test St",
           latitude := -37.81, longitude := 144.96, avg_rating := 0,
           num_ratings := 0, last_updated := "2025-06-10" }] ∧
    ({ name := "Test Toilet", address := "1 Test St", latitude := -37.81,
       longitude := 144.96, avg_rating := 0, num_ratings := 0,
       last_updated := "2025-06-10" } : ToiletRecord) ∈
      (addToilet (seedData "2025-06-09") "Test Toilet" "1 Test St"
        (-37.81) 144.96 "2025-06-10").1 := by
  have hn : ("Test Toilet" : String) ≠ "" := by decide
  have ha : ("1 Test St" : String) ≠ "" := by decide
  have h := addToilet_appends (seedData "2025-06-09") "Test Toilet"
    "1 Test St" (-37.81) 144.96 "2025-06-10" hn ha
  exact ⟨hn, ha, h.1, h.2.1⟩

/-- Parsing a serialized row recovers the record. -/
theorem parseRow_rowOf (r : ToiletRecord) : parseRow (rowOf r) = some r :=
  rfl

/-- Parsing all serialized rows recovers the table. -/
theorem mapM_parseRow_rowOf (t : Table) :
    (t.map rowOf).mapM parseRow = some t := by
  induction t with
  | nil => rfl
  | cons r t ih =>
    rw [List.map_cons, List.mapM_cons, parseRow_rowOf, ih]
    rfl

/-- C9: saving a table to durable storage and loading it back yields the
original table — the save/load round trip is the identity on unmutated
tables. -/
theorem save_load_round_trip (t : Table) (today : String) :
    load_toilet_data (some (to_csv t)) today = t := by
  have hread : read_csv (to_csv t) = some t := by
    rw [to_csv, read_csv, if_pos rfl, mapM_parseRow_rowOf]
  rw [load_toilet_data, hread]
